import Mathlib

/-!
Verification of the dataset-to-report pipeline in
`automation/report_generator.py`: the JSON dataset loader, the column
classifier, the page renderers and the report assembler are shallowly
embedded as executable Lean definitions, and the documented contract of
each component is proved or refuted against this embedding.

External library behaviour that the pipeline relies on is modelled after
the documented semantics of those libraries (pandas record
normalisation, dtype inference for JSON-derived values, stable
value-count ranking); each such modelling decision is noted on the
corresponding definition.
-/

namespace ReportGenerator

/-- A parsed JSON value, the result of `json.load`.  Numbers are modelled
as integers (the claims under verification never depend on fractional
values); objects are association lists with distinct keys, in source
order, as produced by a JSON parser. -/
inductive Json where
  | null : Json
  | bool (b : Bool) : Json
  | num (n : Int) : Json
  | str (s : String) : Json
  | arr (elems : List Json) : Json
  | obj (fields : List (String × Json)) : Json

/-- A cell of a loaded table: `none` is the NaN produced by
`pd.DataFrame.from_records` for a record that lacks the column key;
`some v` is the value stored for the key. -/
abbrev Cell := Option Json

/-- Pandas missing-value test (`dropna` semantics): absent keys (NaN)
and JSON `null` (None) both count as missing. -/
def isNA : Cell → Bool
  | none => true
  | some Json.null => true
  | some _ => false

/-- The cell holds a JSON number. -/
def isNumCell : Cell → Bool
  | some (Json.num _) => true
  | _ => false

/-- The cell holds a JSON boolean. -/
def isBoolCell : Cell → Bool
  | some (Json.bool _) => true
  | _ => false

/-- Fold step collecting keys in order of first appearance. -/
def addKey (acc : List String) (k : String) : List String :=
  if acc.contains k then acc else acc ++ [k]

/-- Keys of one record, in record order. -/
def recordKeys (r : List (String × Json)) : List String :=
  r.map Prod.fst

/-- Union of keys across records, in order of first appearance: this is
the column order `pd.DataFrame.from_records` gives a frame built from a
list of dicts. -/
def unionKeys (recs : List (List (String × Json))) : List String :=
  ((recs.map recordKeys).flatten).foldl addKey []

/-- The in-memory table (`pd.DataFrame`) built from a list of records:
the ordered column names together with the underlying records.  The cell
at row `i`, column `c` is the lookup of `c` in record `i` (a missing key
is NaN). -/
structure Frame where
  columns : List String
  records : List (List (String × Json))

/-- Models `pd.DataFrame.from_records` on a list of record objects:
columns are the union of keys in first-appearance order, one row per
record. -/
def from_records (recs : List (List (String × Json))) : Frame :=
  ⟨unionKeys recs, recs⟩

/-- Column `c` of the frame as the list of its cells, one per row. -/
def columnCells (f : Frame) (c : String) : List Cell :=
  f.records.map (fun r => r.lookup c)

/-- Errors raised by `load_json_dataset`: `FileNotFoundError`,
`ValueError` (with the message used in the source), and a marker for
inputs outside the modelled domain of `pd.DataFrame.from_records`
(arrays containing non-object elements; the library's behaviour there is
not part of this pipeline's contract and is left unmodelled). -/
inductive LoadError where
  | fileNotFound : LoadError
  | validation (msg : String) : LoadError
  | unmodeledRecords : LoadError
deriving DecidableEq

/-- `records = raw["data"] if isinstance(raw, dict) and "data" in raw
else raw` (report_generator.py lines 54-57). -/
def extractRecords (raw : Json) : Json :=
  match raw with
  | Json.obj kvs =>
    match kvs.lookup "data" with
    | some v => v
    | none => raw
  | _ => raw

/-- Views a JSON array's elements as record objects; `none` when some
element is not an object (outside the modelled `from_records` domain). -/
def asRecordList : List Json → Option (List (List (String × Json)))
  | [] => some []
  | Json.obj kvs :: rest => (asRecordList rest).map (fun l => kvs :: l)
  | _ => none

/-- `load_json_dataset` (report_generator.py lines 40-69).  The file
system and the JSON parser are abstracted into the two arguments: does
the path exist, and what value the parse produced.  Mirrors the source
checks in order: existence, list-ness, emptiness, `frame.empty` (a
pandas frame is empty when it has zero rows or zero columns). -/
def load_json_dataset (fileExists : Bool) (raw : Json) : Except LoadError Frame :=
  if fileExists = false then Except.error LoadError.fileNotFound
  else
    match extractRecords raw with
    | Json.arr elems =>
      if elems.isEmpty then
        Except.error (LoadError.validation "JSON dataset is empty")
      else
        match asRecordList elems with
        | some recs =>
          let frame := from_records recs
          if frame.records.isEmpty || frame.columns.isEmpty then
            Except.error (LoadError.validation "JSON dataset produced an empty DataFrame")
          else
            Except.ok frame
        | none => Except.error LoadError.unmodeledRecords
    | _ => Except.error (LoadError.validation "JSON dataset must be a list of records or include a data list")

/-- The pandas dtype a JSON-derived column can have.  Loaded JSON cells
are numbers, booleans, strings, nulls, or nested containers, so the
inferred dtype is one of: a numeric dtype (all present values numbers,
at least one of them), `bool` (every cell a boolean, no missing values),
or `object` (everything else, including all-missing columns, which hold
Python `None` and therefore stay `object`). -/
inductive Dtype where
  | number : Dtype
  | boolean : Dtype
  | object : Dtype
deriving DecidableEq

/-- Pandas dtype inference for one JSON-derived column. -/
def dtypeOf (cells : List Cell) : Dtype :=
  if cells.all isBoolCell then Dtype.boolean
  else if cells.all (fun x => isNA x || isNumCell x) && cells.any isNumCell then Dtype.number
  else Dtype.object

/-- `_numeric_columns` (line 72-73): `df.select_dtypes(include=["number"]).columns`,
the columns of numeric dtype in original column order. -/
def _numeric_columns (f : Frame) : List String :=
  f.columns.filter (fun c => dtypeOf (columnCells f c) == Dtype.number)

/-- `_categorical_columns` (line 76-77):
`df.select_dtypes(include=["object", "category", "bool"]).columns`.  A
`category` dtype never arises from `from_records`, so the selected
columns are those of `object` or `bool` dtype, in original column
order. -/
def _categorical_columns (f : Frame) : List String :=
  f.columns.filter (fun c =>
    dtypeOf (columnCells f c) == Dtype.object || dtypeOf (columnCells f c) == Dtype.boolean)

/-- `series.dropna()` for one column: the values of the non-missing
cells, in row order. -/
def dropna (cells : List Cell) : List Json :=
  cells.filterMap (fun x => if isNA x then none else x)

/-- An ASCII single quote, kept out of string literals. -/
def sq : String := String.singleton (Char.ofNat 39)

mutual

/-- Python `repr` of a loaded JSON value (used by `str` on containers).
String escaping inside `repr` is not reproduced; none of the verified
properties depend on the exact rendering. -/
def pyRepr : Json → String
  | Json.null => "None"
  | Json.bool true => "True"
  | Json.bool false => "False"
  | Json.num n => toString n
  | Json.str s => sq ++ s ++ sq
  | Json.arr xs => "[" ++ pyReprItems xs ++ "]"
  | Json.obj kvs => "\x7b" ++ pyReprFields kvs ++ "\x7d"

/-- Comma-separated `repr`s of list items. -/
def pyReprItems : List Json → String
  | [] => ""
  | [x] => pyRepr x
  | x :: rest => pyRepr x ++ ", " ++ pyReprItems rest

/-- Comma-separated `repr`s of dict fields. -/
def pyReprFields : List (String × Json) → String
  | [] => ""
  | [kv] => sq ++ kv.1 ++ sq ++ ": " ++ pyRepr kv.2
  | kv :: rest => sq ++ kv.1 ++ sq ++ ": " ++ pyRepr kv.2 ++ ", " ++ pyReprFields rest

end

/-- Python `str` of a loaded JSON value, as applied by `.astype(str)`. -/
def pyStr : Json → String
  | Json.str s => s
  | j => pyRepr j

/-- `df[column].dropna().astype(str)` (line 123): the non-missing values
of the column coerced to strings, in row order. -/
def seriesFor (f : Frame) (c : String) : List String :=
  (dropna (columnCells f c)).map pyStr

/-- Distinct values of a series in order of first appearance — the key
order of the pandas value-count hash table. -/
def distinctFirstSeen (xs : List String) : List String :=
  xs.foldl addKey []

/-- Number of occurrences of `v` in the series. -/
def countOf (xs : List String) (v : String) : Nat :=
  (xs.filter (fun x => x == v)).length

/-- The (value, frequency) pairs of a series, keys in first-appearance
order. -/
def countPairs (xs : List String) : List (String × Nat) :=
  (distinctFirstSeen xs).map (fun v => (v, countOf xs v))

/-- Insert a pair into a list sorted by descending count, after every
entry of greater or equal count (the placement a stable descending sort
gives an element arriving later). -/
def insertDesc (p : String × Nat) : List (String × Nat) → List (String × Nat)
  | [] => [p]
  | q :: rest => if q.2 < p.2 then p :: q :: rest else q :: insertDesc p rest

/-- Stable sort by descending count (insertion sort, processing the
input in order). -/
def sortDesc (ps : List (String × Nat)) : List (String × Nat) :=
  ps.foldl (fun acc p => insertDesc p acc) []

/-- Models `series.value_counts()`: one entry per distinct value with
its frequency, sorted by descending frequency; ties keep the
first-appearance order of the values (pandas sorts the hash-table keys,
which are in first-appearance order, with a stable sort). -/
def value_counts (xs : List String) : List (String × Nat) :=
  sortDesc (countPairs xs)

/-- Position of a value in the first-appearance order of the series. -/
def firstSeenIdx (xs : List String) (v : String) : Nat :=
  (distinctFirstSeen xs).indexOf v

/-- One page of the assembled document.  A categorical page carries the
bars it displays: the (value, count) pairs in display order. -/
inductive Page where
  | title : Page
  | numeric (column : String) : Page
  | correlation : Page
  | categorical (column : String) (bars : List (String × Nat)) : Page
  | fallback : Page
deriving DecidableEq

/-- `_plot_numeric_column` (lines 100-119): drops missing values,
returns without a page when nothing remains, otherwise emits one page. -/
def _plot_numeric_column (f : Frame) (c : String) : List Page :=
  if (dropna (columnCells f c)).isEmpty then [] else [Page.numeric c]

/-- `_plot_categorical_column` (lines 122-137): drops missing values and
coerces to strings, returns without a page when nothing remains,
otherwise emits one bar-chart page showing
`series.value_counts().head(10)`. -/
def _plot_categorical_column (f : Frame) (c : String) : List Page :=
  let series := seriesFor f c
  if series.isEmpty then []
  else [Page.categorical c ((value_counts series).take 10)]

/-- `_plot_correlation_heatmap` (lines 140-151): returns without a page
when fewer than two numeric columns exist, otherwise emits one page. -/
def _plot_correlation_heatmap (numeric_cols : List String) : List Page :=
  if numeric_cols.length < 2 then [] else [Page.correlation]

/-- The page sequence assembled by `generate_pdf_report` (lines
172-196): title page; if any numeric columns, one (possibly skipped)
page per numeric column then the correlation heatmap; if any categorical
columns, one (possibly skipped) page per categorical column; if neither
kind of column, the fallback page. -/
def reportPages (f : Frame) : List Page :=
  let numeric_cols := _numeric_columns f
  let categorical_cols := _categorical_columns f
  [Page.title]
    ++ (if numeric_cols.isEmpty then []
        else numeric_cols.flatMap (_plot_numeric_column f) ++ _plot_correlation_heatmap numeric_cols)
    ++ (if categorical_cols.isEmpty then []
        else categorical_cols.flatMap (_plot_categorical_column f))
    ++ (if numeric_cols.isEmpty && categorical_cols.isEmpty then [Page.fallback] else [])

/-- The page sequence the specification describes for a dataset with at
least one numeric and at least one categorical column: a title page, one
page per numeric column that is non-empty after dropping missing values
(in column order), a correlation page exactly when at least two numeric
columns exist, then one page per categorical column that is non-empty
after dropping missing values (in column order). -/
def specPagesMixed (f : Frame) : List Page :=
  [Page.title]
    ++ ((_numeric_columns f).filter (fun c => !(dropna (columnCells f c)).isEmpty)).map Page.numeric
    ++ (if 2 ≤ (_numeric_columns f).length then [Page.correlation] else [])
    ++ ((_categorical_columns f).filter (fun c => !(dropna (columnCells f c)).isEmpty)).map
        (fun c => Page.categorical c ((value_counts (seriesFor f c)).take 10))

/-- The two-row example record list used in the repository tests: one
numeric column `value` and one categorical column `category`. -/
def exampleRecords : List (List (String × Json)) :=
  [[("value", Json.num 1), ("category", Json.str "A")],
   [("value", Json.num 2), ("category", Json.str "B")]]

/-- The frame the loader builds from `exampleRecords`. -/
def exampleFrame : Frame := from_records exampleRecords

/-- A one-row frame with a boolean column and an entirely missing
column. -/
def flagFrame : Frame :=
  from_records [[("flag", Json.bool true), ("gone", Json.null)]]

/-- A wall-clock timestamp at second resolution, the value read by
`datetime.now()` at generation start. -/
@[ext]
structure DateTime6 where
  year : Nat
  month : Nat
  day : Nat
  hour : Nat
  minute : Nat
  second : Nat
deriving DecidableEq

/-- The timestamp fields lie in their calendar ranges (with a four-digit
year, the range in which `strftime("%Y")` produces exactly four
digits). -/
def validDT (t : DateTime6) : Prop :=
  1000 ≤ t.year ∧ t.year ≤ 9999 ∧ 1 ≤ t.month ∧ t.month ≤ 12 ∧
    1 ≤ t.day ∧ t.day ≤ 31 ∧ t.hour ≤ 23 ∧ t.minute ≤ 59 ∧ t.second ≤ 59

instance (t : DateTime6) : Decidable (validDT t) := by
  unfold validDT; infer_instance

/-- The ASCII digit character for `n % 10`. -/
def digitChar (n : Nat) : Char := Char.ofNat (48 + n % 10)

/-- Two-digit zero-padded rendering (`%m`, `%d`, `%H`, `%M`, `%S`). -/
def pad2 (n : Nat) : List Char := [digitChar (n / 10), digitChar n]

/-- Four-digit zero-padded rendering (`%Y` for four-digit years). -/
def pad4 (n : Nat) : List Char :=
  [digitChar (n / 1000), digitChar (n / 100), digitChar (n / 10), digitChar n]

/-- `datetime.now().strftime("%Y%m%d_%H%M%S")` (line 165). -/
def strftime_compact (t : DateTime6) : String :=
  String.mk (pad4 t.year ++ pad2 t.month ++ pad2 t.day ++ ['_']
    ++ pad2 t.hour ++ pad2 t.minute ++ pad2 t.second)

/-- `f"report_{timestamp}.pdf"` (line 166). -/
def report_name (t : DateTime6) : String :=
  "report_" ++ strftime_compact t ++ ".pdf"

/-- Observable side effects of `generate_pdf_report`, in the order the
source performs them: create the report directory, open the output
document, save a page into it, close it. -/
inductive Effect where
  | mkdirReportDir : Effect
  | openDocument (name : String) : Effect
  | savePage (p : Page) : Effect
  | closeDocument : Effect
deriving DecidableEq

/-- `generate_pdf_report` (lines 154-198) as a trace semantics: the
dataset is loaded first and a loader failure propagates unchanged with
no effect performed (in particular the report directory is not created
and no file is opened); on success the returned trace records the
directory creation, the document being opened under the timestamped
name, every page saved in order, and the document being closed. -/
def generate_pdf_report (fileExists : Bool) (raw : Json) (now : DateTime6) :
    Except LoadError (String × List Effect) :=
  match load_json_dataset fileExists raw with
  | Except.error e => Except.error e
  | Except.ok frame =>
    let name := report_name now
    Except.ok (name,
      [Effect.mkdirReportDir, Effect.openDocument name]
        ++ (reportPages frame).map Effect.savePage ++ [Effect.closeDocument])

/-- `ReportConfig` (lines 24-30): source path (as a string), report
directory, optional title. -/
structure ReportConfig where
  json_path : String
  report_dir : String
  title : Option String
deriving DecidableEq

/-- Python truthiness of `self.title`: `None` and the empty string are
falsy, every other string is truthy. -/
def truthyTitle : Option String → Bool
  | none => false
  | some s => !(s == "")

/-- Splits a character list on `/`, accumulating the current component
in reverse. -/
def splitSlashAux : List Char → List Char → List (List Char)
  | [], cur => [cur.reverse]
  | ch :: rest, cur =>
    if ch = '/' then cur.reverse :: splitSlashAux rest [] else splitSlashAux rest (ch :: cur)

/-- Last path component of a POSIX path (`PurePath.name`): the last
non-empty `/`-separated component. -/
def pathName (p : String) : String :=
  String.mk ((splitSlashAux p.toList []).foldl (fun acc comp => if comp.isEmpty then acc else comp) [])

/-- Positions of the dot characters in a character list. -/
def dotPositions (cs : List Char) : List Nat :=
  (List.range cs.length).filter (fun i => cs.getD i ' ' == '.')

/-- `PurePath.stem`: the name with its final suffix removed; the suffix
starts at the last dot, provided that dot is neither the first nor the
last character of the name. -/
def stemOf (name : String) : String :=
  let cs := name.toList
  match (dotPositions cs).getLast? with
  | some i => if 0 < i && i + 1 < cs.length then String.mk (cs.take i) else name
  | none => name

/-- `Path.stem` of the configured source path. -/
def pathStem (p : String) : String := stemOf (pathName p)

/-- One step of Python `str.title()`: an alphabetic character is
uppercased when the previous character was not alphabetic and lowercased
otherwise; other characters pass through. -/
def pyTitleChar (prevAlpha : Bool) (c : Char) : Char :=
  if c.isAlpha then (if prevAlpha then c.toLower else c.toUpper) else c

/-- Character recursion for `str.title()`. -/
def pyTitleGo : Bool → List Char → List Char
  | _, [] => []
  | prevAlpha, c :: rest => pyTitleChar prevAlpha c :: pyTitleGo c.isAlpha rest

/-- Python `str.title()` restricted to ASCII letters (the only cased
characters the pipeline's derived titles involve). -/
def pyTitle (s : String) : String := String.mk (pyTitleGo false s.toList)

/-- Python `stem.replace("_", " ")`: every underscore replaced by a
space. -/
def replaceUnderscores (s : String) : String :=
  String.mk (s.toList.map (fun ch => if ch = '_' then ' ' else ch))

/-- The derived default title: the source file stem with underscores
replaced by spaces, title-cased, behind the fixed heading text. -/
def derivedTitle (cfg : ReportConfig) : String :=
  "Data Report: " ++ pyTitle (replaceUnderscores (pathStem cfg.json_path))

/-- `ReportConfig.resolved_title` (lines 32-37): the configured title
when truthy, the derived default otherwise. -/
def resolved_title (cfg : ReportConfig) : String :=
  if truthyTitle cfg.title then cfg.title.getD "" else derivedTitle cfg

/-- The file-name pattern stated by the specification, read literally:
`report_` followed by fourteen digit characters followed by `.pdf`. -/
def matchesClaimPattern (s : String) : Bool :=
  let cs := s.toList
  (cs.length == 25) && (cs.take 7 == "report_".toList)
    && (((cs.drop 7).take 14).all Char.isDigit) && (cs.drop 21 == ".pdf".toList)

/-- The file-name pattern the source actually produces: `report_`,
eight digits, an underscore, six digits, `.pdf`. -/
def matchesReportNamePattern (s : String) : Bool :=
  let cs := s.toList
  (cs.length == 26) && (cs.take 7 == "report_".toList)
    && (((cs.drop 7).take 8).all Char.isDigit) && (cs.getD 15 ' ' == '_')
    && (((cs.drop 16).take 6).all Char.isDigit) && (cs.drop 22 == ".pdf".toList)

theorem digitChar_toNat (n : Nat) : (digitChar n).toNat = 48 + n % 10 := by
  have h : n % 10 < 10 := Nat.mod_lt _ (by omega)
  unfold digitChar
  set k := n % 10 with hk
  interval_cases k <;> rfl

theorem isDigit_digitChar (n : Nat) : (digitChar n).isDigit = true := by
  have h : n % 10 < 10 := Nat.mod_lt _ (by omega)
  unfold digitChar
  set k := n % 10 with hk
  interval_cases k <;> rfl

theorem digitChar_inj {a b : Nat} (h : digitChar a = digitChar b) : a % 10 = b % 10 := by
  have := congrArg Char.toNat h
  rw [digitChar_toNat, digitChar_toNat] at this
  omega

theorem report_name_data (t : DateTime6) :
    (report_name t).data =
      'r' :: 'e' :: 'p' :: 'o' :: 'r' :: 't' :: '_'
        :: digitChar (t.year / 1000) :: digitChar (t.year / 100)
        :: digitChar (t.year / 10) :: digitChar t.year
        :: digitChar (t.month / 10) :: digitChar t.month
        :: digitChar (t.day / 10) :: digitChar t.day
        :: '_'
        :: digitChar (t.hour / 10) :: digitChar t.hour
        :: digitChar (t.minute / 10) :: digitChar t.minute
        :: digitChar (t.second / 10) :: digitChar t.second
        :: '.' :: 'p' :: 'd' :: 'f' :: [] := by
  have h1 : "report_".data = ['r', 'e', 'p', 'o', 'r', 't', '_'] := rfl
  have h2 : ".pdf".data = ['.', 'p', 'd', 'f'] := rfl
  simp [report_name, strftime_compact, String.data_append, h1, h2, pad4, pad2]

theorem digits4_inj {a b : Nat} (ha : a ≤ 9999) (hb : b ≤ 9999)
    (e1 : a / 1000 % 10 = b / 1000 % 10) (e2 : a / 100 % 10 = b / 100 % 10)
    (e3 : a / 10 % 10 = b / 10 % 10) (e4 : a % 10 = b % 10) : a = b := by
  omega

theorem digits2_inj {a b : Nat} (ha : a ≤ 99) (hb : b ≤ 99)
    (e1 : a / 10 % 10 = b / 10 % 10) (e2 : a % 10 = b % 10) : a = b := by
  omega

theorem report_name_inj {t1 t2 : DateTime6} (h1 : validDT t1) (h2 : validDT t2)
    (h : report_name t1 = report_name t2) : t1 = t2 := by
  obtain ⟨a1, a2, a3, a4, a5, a6, a7, a8, a9⟩ := h1
  obtain ⟨b1, b2, b3, b4, b5, b6, b7, b8, b9⟩ := h2
  have hd := congrArg String.data h
  rw [report_name_data, report_name_data] at hd
  injection hd with c1 hd
  injection hd with c2 hd
  injection hd with c3 hd
  injection hd with c4 hd
  injection hd with c5 hd
  injection hd with c6 hd
  injection hd with c7 hd
  injection hd with c8 hd
  injection hd with c9 hd
  injection hd with c10 hd
  injection hd with c11 hd
  injection hd with c12 hd
  injection hd with c13 hd
  injection hd with c14 hd
  injection hd with c15 hd
  injection hd with c16 hd
  injection hd with c17 hd
  injection hd with c18 hd
  injection hd with c19 hd
  injection hd with c20 hd
  injection hd with c21 hd
  injection hd with c22 hd
  ext
  · exact digits4_inj a2 b2 (digitChar_inj c8) (digitChar_inj c9)
      (digitChar_inj c10) (digitChar_inj c11)
  · exact digits2_inj (a4.trans (by norm_num)) (b4.trans (by norm_num))
      (digitChar_inj c12) (digitChar_inj c13)
  · exact digits2_inj (a6.trans (by norm_num)) (b6.trans (by norm_num))
      (digitChar_inj c14) (digitChar_inj c15)
  · exact digits2_inj (a7.trans (by norm_num)) (b7.trans (by norm_num))
      (digitChar_inj c17) (digitChar_inj c18)
  · exact digits2_inj (a8.trans (by norm_num)) (b8.trans (by norm_num))
      (digitChar_inj c19) (digitChar_inj c20)
  · exact digits2_inj (a9.trans (by norm_num)) (b9.trans (by norm_num))
      (digitChar_inj c21) (digitChar_inj c22)

theorem report_name_matches (t : DateTime6) :
    matchesReportNamePattern (report_name t) = true := by
  unfold matchesReportNamePattern
  rw [show (report_name t).toList = (report_name t).data from rfl, report_name_data]
  simp [isDigit_digitChar]

/-- Claim C6, counterexample: the name generated at 2024-01-02 03:04:05
is `report_20240102_030405.pdf`; the fourteen timestamp digits are split
by an underscore, so the name does not match the claimed literal pattern
`report_<14-digit-YYYYMMDDHHMMSS>.pdf` (fourteen consecutive digits
between `report_` and `.pdf`). -/
theorem c6_counterexample :
    report_name ⟨2024, 1, 2, 3, 4, 5⟩ = "report_20240102_030405.pdf" ∧
    matchesClaimPattern (report_name ⟨2024, 1, 2, 3, 4, 5⟩) = false := by
  constructor
  · decide
  · decide

/-- Claim C6, amended: for every valid generation timestamp the output
file name matches `report_<YYYYMMDD>_<HHMMSS>.pdf` (fourteen digits with
an underscore separator); two runs produce the same name if and only if
their timestamps agree at second resolution (so a rerun within the same
calendar second overwrites and runs in different seconds never do); and
the name returned by `generate_pdf_report` is exactly the timestamped
name for the generation-start time. -/
theorem c6_report_naming (t1 t2 : DateTime6) (h1 : validDT t1) (h2 : validDT t2) :
    matchesReportNamePattern (report_name t1) = true ∧
    (report_name t1 = report_name t2 ↔ t1 = t2) ∧
    (∀ fileExists raw name trace,
      generate_pdf_report fileExists raw t1 = Except.ok (name, trace) →
        name = report_name t1) := by
  refine ⟨report_name_matches t1, ⟨fun h => report_name_inj h1 h2 h, fun h => by rw [h]⟩, ?_⟩
  intro fileExists raw name trace hg
  cases hl : load_json_dataset fileExists raw with
  | error e => simp [generate_pdf_report, hl] at hg
  | ok frame =>
    simp only [generate_pdf_report, hl, Except.ok.injEq, Prod.mk.injEq] at hg
    exact hg.1.symm

/-- Claim C6, witness at the timestamp 2024-01-02 03:04:05. -/
theorem c6_report_naming_witness :
    validDT ⟨2024, 1, 2, 3, 4, 5⟩ ∧
    (matchesReportNamePattern (report_name ⟨2024, 1, 2, 3, 4, 5⟩) = true ∧
      (report_name ⟨2024, 1, 2, 3, 4, 5⟩ = report_name ⟨2024, 1, 2, 3, 4, 5⟩ ↔
        (⟨2024, 1, 2, 3, 4, 5⟩ : DateTime6) = ⟨2024, 1, 2, 3, 4, 5⟩) ∧
      (∀ fileExists raw name trace,
        generate_pdf_report fileExists raw ⟨2024, 1, 2, 3, 4, 5⟩ = Except.ok (name, trace) →
          name = report_name ⟨2024, 1, 2, 3, 4, 5⟩)) :=
  ⟨by decide, c6_report_naming ⟨2024, 1, 2, 3, 4, 5⟩ ⟨2024, 1, 2, 3, 4, 5⟩ (by decide) (by decide)⟩

/-- Claim C7, counterexample: with the empty string supplied as title
and source file `sales_data.json`, the resolved title is the derived
default, not the supplied (empty) title — a supplied title is not always
used unchanged. -/
theorem c7_counterexample :
    (⟨"sales_data.json", "Reports", some ""⟩ : ReportConfig).title = some "" ∧
    resolved_title ⟨"sales_data.json", "Reports", some ""⟩ = "Data Report: Sales Data" ∧
    resolved_title ⟨"sales_data.json", "Reports", some ""⟩ ≠ "" := by
  refine ⟨rfl, by decide, by decide⟩

/-- Claim C7, amended: when the configured title is absent the resolved
title is the derived default (the source file stem with underscores
replaced by spaces, title-cased, behind `Data Report: `); a supplied
non-empty title is used unchanged; a supplied empty title also falls
back to the derived default. -/
theorem c7_resolved_title (cfg : ReportConfig) :
    (cfg.title = none →
      resolved_title cfg = "Data Report: " ++ pyTitle (replaceUnderscores (pathStem cfg.json_path))) ∧
    (∀ s, cfg.title = some s → s ≠ "" → resolved_title cfg = s) ∧
    (cfg.title = some "" →
      resolved_title cfg = "Data Report: " ++ pyTitle (replaceUnderscores (pathStem cfg.json_path))) := by
  obtain ⟨p, d, ti⟩ := cfg
  refine ⟨fun h => ?_, fun s hs hne => ?_, fun h => ?_⟩ <;>
    simp_all [resolved_title, truthyTitle, derivedTitle]

/-- Claim C7, witness: the three title-resolution cases at concrete
configurations built on `sales_data.json`. -/
theorem c7_resolved_title_witness :
    resolved_title ⟨"sales_data.json", "Reports", none⟩ = "Data Report: Sales Data" ∧
    resolved_title ⟨"sales_data.json", "Reports", some "Test Report"⟩ = "Test Report" ∧
    resolved_title ⟨"sales_data.json", "Reports", some ""⟩ = "Data Report: Sales Data" :=
  ⟨((c7_resolved_title ⟨"sales_data.json", "Reports", none⟩).1 rfl).trans (by decide),
   (c7_resolved_title ⟨"sales_data.json", "Reports", some "Test Report"⟩).2.1
     "Test Report" rfl (by decide),
   ((c7_resolved_title ⟨"sales_data.json", "Reports", some ""⟩).2.2 rfl).trans (by decide)⟩

/-- Claim C9: a configured title equal to the empty string resolves
exactly as an absent title does — the truthiness test treats the two the
same way. -/
theorem c9_empty_title_default (cfg : ReportConfig) (h : cfg.title = some "") :
    resolved_title cfg = resolved_title ⟨cfg.json_path, cfg.report_dir, none⟩ := by
  obtain ⟨p, d, ti⟩ := cfg
  simp_all [resolved_title, truthyTitle, derivedTitle]

/-- Claim C9, witness at a concrete configuration. -/
theorem c9_empty_title_default_witness :
    resolved_title ⟨"sales_data.json", "Reports", some ""⟩ =
      resolved_title ⟨"sales_data.json", "Reports", none⟩ :=
  c9_empty_title_default ⟨"sales_data.json", "Reports", some ""⟩ rfl

/-- Claim C10: when the top level is an object with a `data` key, the
loader depends only on the value under `data`; two objects with the same
`data` value and arbitrary other keys load identically. -/
theorem c10_only_data_key (fileExists : Bool) (kvs1 kvs2 : List (String × Json)) (d : Json)
    (h1 : kvs1.lookup "data" = some d) (h2 : kvs2.lookup "data" = some d) :
    load_json_dataset fileExists (Json.obj kvs1) = load_json_dataset fileExists (Json.obj kvs2) := by
  simp only [load_json_dataset, extractRecords, h1, h2]

/-- Claim C10, witness: two wrappers around the same `data` array with
different sibling keys load to the same result. -/
theorem c10_only_data_key_witness :
    load_json_dataset true
        (Json.obj [("data", Json.arr [Json.obj [("a", Json.num 1)]]), ("meta", Json.str "x")]) =
      load_json_dataset true
        (Json.obj [("data", Json.arr [Json.obj [("a", Json.num 1)]]),
          ("other", Json.num 7), ("flag", Json.bool true)]) :=
  c10_only_data_key true _ _ _ rfl rfl

/-- Claim C8: `generate_pdf_report` fails with exactly the loader error
whenever the loader fails (the failure propagates unchanged and, the
returned value being the whole effect trace, no directory creation, file
opening or page writing takes place); on success the trace starts with
the directory creation and document opening and the loader succeeded. -/
theorem c8_loader_failure_propagates (fileExists : Bool) (raw : Json) (now : DateTime6) :
    (∀ e, generate_pdf_report fileExists raw now = Except.error e ↔
        load_json_dataset fileExists raw = Except.error e) ∧
    (∀ name trace, generate_pdf_report fileExists raw now = Except.ok (name, trace) →
      ∃ frame, load_json_dataset fileExists raw = Except.ok frame ∧
        name = report_name now ∧
        trace = [Effect.mkdirReportDir, Effect.openDocument (report_name now)]
          ++ (reportPages frame).map Effect.savePage ++ [Effect.closeDocument]) := by
  cases hl : load_json_dataset fileExists raw with
  | error e => simp [generate_pdf_report, hl]
  | ok frame =>
    refine ⟨fun e => by simp [generate_pdf_report, hl], fun name trace hg => ?_⟩
    simp only [generate_pdf_report, hl, Except.ok.injEq, Prod.mk.injEq] at hg
    exact ⟨frame, rfl, hg.1.symm, hg.2.symm⟩

/-- Claim C8, witness: a missing file makes the report call fail with
the loader error. -/
theorem c8_loader_failure_propagates_witness :
    (generate_pdf_report false Json.null ⟨2024, 1, 2, 3, 4, 5⟩ =
        Except.error LoadError.fileNotFound ↔
      load_json_dataset false Json.null = Except.error LoadError.fileNotFound) :=
  (c8_loader_failure_propagates false Json.null ⟨2024, 1, 2, 3, 4, 5⟩).1 LoadError.fileNotFound

theorem seriesFor_isEmpty (f : Frame) (c : String) :
    (seriesFor f c).isEmpty = (dropna (columnCells f c)).isEmpty := by
  unfold seriesFor
  cases dropna (columnCells f c) <;> simp

theorem flatMap_numeric_pages (f : Frame) (l : List String) :
    l.flatMap (_plot_numeric_column f) =
      (l.filter (fun c => !(dropna (columnCells f c)).isEmpty)).map Page.numeric := by
  induction l with
  | nil => rfl
  | cons c rest ih =>
    by_cases h : (dropna (columnCells f c)).isEmpty = true <;>
      simp [List.flatMap_cons, List.filter_cons, _plot_numeric_column, h, ih]

theorem flatMap_categorical_pages (f : Frame) (l : List String) :
    l.flatMap (_plot_categorical_column f) =
      (l.filter (fun c => !(dropna (columnCells f c)).isEmpty)).map
        (fun c => Page.categorical c ((value_counts (seriesFor f c)).take 10)) := by
  induction l with
  | nil => rfl
  | cons c rest ih =>
    by_cases h : (dropna (columnCells f c)).isEmpty = true <;>
      simp [List.flatMap_cons, List.filter_cons, _plot_categorical_column,
        seriesFor_isEmpty, h, ih]

/-- Claim C1: for a dataset with at least one numeric and at least one
categorical column the assembled document is exactly a title page, one
page per non-empty numeric column in column order, a correlation page
precisely when at least two numeric columns exist, and one page per
non-empty categorical column in column order; for a dataset with no
numeric and no categorical columns it is exactly a title page followed
by the fallback page; and the fallback page appears precisely in the
latter situation, so it never coexists with numeric, categorical or
correlation pages. -/
theorem c1_page_sequence (f : Frame) :
    (_numeric_columns f ≠ [] → _categorical_columns f ≠ [] →
      reportPages f = specPagesMixed f) ∧
    (_numeric_columns f = [] → _categorical_columns f = [] →
      reportPages f = [Page.title, Page.fallback]) ∧
    (Page.fallback ∈ reportPages f ↔
      _numeric_columns f = [] ∧ _categorical_columns f = []) := by
  refine ⟨fun hn hc => ?_, fun hn hc => ?_, ?_⟩
  · have hn2 : (_numeric_columns f).isEmpty = false := by
      cases h : _numeric_columns f <;> simp_all
    have hc2 : (_categorical_columns f).isEmpty = false := by
      cases h : _categorical_columns f <;> simp_all
    simp only [reportPages, specPagesMixed, _plot_correlation_heatmap, hn2, hc2,
      Bool.false_and, Bool.false_eq_true, if_false,
      flatMap_numeric_pages, flatMap_categorical_pages]
    rcases Nat.lt_or_ge (_numeric_columns f).length 2 with h2 | h2
    · simp [h2, Nat.not_le.mpr h2]
    · simp [Nat.not_lt.mpr h2, h2]
  · simp [reportPages, hn, hc]
  · constructor
    · intro hmem
      by_cases hn : (_numeric_columns f).isEmpty = true
      · by_cases hc : (_categorical_columns f).isEmpty = true
        · exact ⟨List.isEmpty_iff.mp hn, List.isEmpty_iff.mp hc⟩
        · simp only [reportPages, hn, hc, Bool.true_and, Bool.false_eq_true, if_false,
            if_true, flatMap_categorical_pages, List.append_nil, List.nil_append,
            List.mem_append, List.mem_singleton, List.mem_map] at hmem
          rcases hmem with h | ⟨x, -, hx⟩ <;> simp_all
      · by_cases hc : (_categorical_columns f).isEmpty = true
        · simp only [reportPages, hn, hc, Bool.and_true, Bool.false_eq_true, if_false,
            if_true, flatMap_numeric_pages, _plot_correlation_heatmap,
            List.append_nil, List.nil_append, List.mem_append,
            List.mem_singleton, List.mem_map] at hmem
          rcases hmem with h | ⟨x, -, hx⟩ | h <;> simp_all
        · simp only [reportPages, hn, hc, Bool.and_self, Bool.false_and,
            Bool.false_eq_true, if_false, flatMap_numeric_pages,
            flatMap_categorical_pages, _plot_correlation_heatmap,
            List.append_nil, List.nil_append, List.mem_append,
            List.mem_singleton, List.mem_map] at hmem
          rcases hmem with h | ⟨x, -, hx⟩ | h | ⟨x, -, hx⟩ <;> simp_all
    · rintro ⟨hn, hc⟩
      simp [reportPages, hn, hc]

/-- Claim C1, witness: the repository example dataset (one numeric, one
categorical column) and the empty-columns dataset. -/
theorem c1_page_sequence_witness :
    (_numeric_columns exampleFrame ≠ [] ∧ _categorical_columns exampleFrame ≠ [] ∧
      reportPages exampleFrame = specPagesMixed exampleFrame) ∧
    (_numeric_columns (from_records []) = [] ∧ _categorical_columns (from_records []) = [] ∧
      reportPages (from_records []) = [Page.title, Page.fallback]) :=
  ⟨⟨by decide, by decide, (c1_page_sequence exampleFrame).1 (by decide) (by decide)⟩,
   ⟨rfl, rfl, (c1_page_sequence (from_records [])).2.1 rfl rfl⟩⟩

theorem asRecordList_map_obj (recs : List (List (String × Json))) :
    asRecordList (recs.map Json.obj) = some recs := by
  induction recs with
  | nil => rfl
  | cons r rest ih => simp [asRecordList, ih]

theorem mem_foldl_addKey (xs : List String) : ∀ (acc : List String) (x : String),
    x ∈ xs.foldl addKey acc ↔ x ∈ acc ∨ x ∈ xs := by
  induction xs with
  | nil => simp
  | cons k rest ih =>
    intro acc x
    rw [List.foldl_cons, ih]
    unfold addKey
    by_cases h : acc.contains k = true
    · have hk : k ∈ acc := by simpa using h
      rw [if_pos h]
      constructor
      · rintro (hx | hx)
        · exact Or.inl hx
        · exact Or.inr (List.mem_cons_of_mem _ hx)
      · rintro (hx | hx)
        · exact Or.inl hx
        · rcases List.mem_cons.mp hx with rfl | hx
          · exact Or.inl hk
          · exact Or.inr hx
    · rw [if_neg h]
      simp only [List.mem_append, List.mem_singleton, List.mem_cons]
      tauto

theorem mem_unionKeys (recs : List (List (String × Json))) (c : String) :
    c ∈ unionKeys recs ↔ ∃ r ∈ recs, c ∈ recordKeys r := by
  unfold unionKeys
  rw [mem_foldl_addKey]
  simp [List.mem_flatten]

/-- Claim C2, amended: for every JSON input whose extracted record
value is a non-empty array of record objects carrying at least one key
overall, loading succeeds and produces a frame whose row count equals
the array length, whose column set is the union of the keys seen across
records, and in which a record lacking a key has a missing value in that
column for that row. -/
theorem c2_load_record_array (raw : Json) (recs : List (List (String × Json)))
    (hshape : extractRecords raw = Json.arr (recs.map Json.obj))
    (hne : recs ≠ []) (hkeys : unionKeys recs ≠ []) :
    load_json_dataset true raw = Except.ok (from_records recs) ∧
    (from_records recs).records.length = recs.length ∧
    (∀ c, c ∈ (from_records recs).columns ↔ ∃ r ∈ recs, c ∈ recordKeys r) ∧
    (∀ i c, (recs.getD i []).lookup c = none →
      isNA ((columnCells (from_records recs) c).getD i none) = true) := by
  refine ⟨?_, rfl, fun c => mem_unionKeys recs c, fun i c hlook => ?_⟩
  · have hmapne : recs.map Json.obj ≠ [] := by
      simpa [List.map_eq_nil_iff] using hne
    have hempty : (recs.map Json.obj).isEmpty = false := by
      cases h : recs.map Json.obj <;> simp_all
    have hrecne : (from_records recs).records.isEmpty = false := by
      cases h : recs <;> simp_all [from_records]
    have hcolne : (from_records recs).columns.isEmpty = false := by
      cases h : unionKeys recs <;> simp_all [from_records]
    simp [load_json_dataset, hshape, hempty, asRecordList_map_obj, hrecne, hcolne]
  · by_cases hi : i < recs.length
    · have : (columnCells (from_records recs) c).getD i none = (recs.getD i []).lookup c := by
        unfold columnCells from_records
        rw [List.getD_eq_getElem?_getD, List.getElem?_map]
        rw [List.getD_eq_getElem?_getD, List.getElem?_eq_getElem hi]
        simp
      rw [this, hlook]
      rfl
    · have : (columnCells (from_records recs) c).getD i none = none := by
        unfold columnCells from_records
        rw [List.getD_eq_getElem?_getD]
        rw [List.getElem?_eq_none]
        · rfl
        · simpa using Nat.le_of_not_lt hi
      rw [this]
      rfl

/-- Claim C3: the loader fails with the not-found error exactly when
the path does not exist; for an existing path it fails with a
`ValueError` exactly when the extracted value is not an array, or the
array is empty, or the built table has no columns (for record arrays the
row count equals the array length, so zero rows coincides with the empty
array); in every other case it returns a frame with at least one row and
at least one column.  The hypothesis restricts the embedding to arrays
of record objects, the domain on which `pd.DataFrame.from_records` is
modelled. -/
theorem c3_loader_error_conditions (raw : Json)
    (hdom : ∀ elems, extractRecords raw = Json.arr elems →
      ∃ recs : List (List (String × Json)), elems = recs.map Json.obj) :
    load_json_dataset false raw = Except.error LoadError.fileNotFound ∧
    (load_json_dataset true raw ≠ Except.error LoadError.fileNotFound) ∧
    ((∃ msg, load_json_dataset true raw = Except.error (LoadError.validation msg)) ↔
      ((¬ ∃ elems, extractRecords raw = Json.arr elems) ∨
        extractRecords raw = Json.arr [] ∨
        (∃ recs : List (List (String × Json)),
          extractRecords raw = Json.arr (recs.map Json.obj) ∧ unionKeys recs = []))) ∧
    ((∀ msg, load_json_dataset true raw ≠ Except.error (LoadError.validation msg)) →
      ∃ frame, load_json_dataset true raw = Except.ok frame ∧
        frame.columns ≠ [] ∧ frame.records ≠ []) := by
  by_cases harr : ∃ elems, extractRecords raw = Json.arr elems
  · obtain ⟨elems, hext⟩ := harr
    obtain ⟨recs, rfl⟩ := hdom elems hext
    cases recs with
    | nil =>
      have hload : load_json_dataset true raw =
          Except.error (LoadError.validation "JSON dataset is empty") := by
        simp [load_json_dataset, hext]
      refine ⟨rfl, by rw [hload]; simp, ?_, fun hno => absurd hload (hno _)⟩
      constructor
      · intro _
        exact Or.inr (Or.inl (by simpa using hext))
      · intro _
        exact ⟨_, hload⟩
    | cons r rest =>
      by_cases hcols : unionKeys (r :: rest) = []
      · have hload : load_json_dataset true raw =
            Except.error (LoadError.validation "JSON dataset produced an empty DataFrame") := by
          simp only [load_json_dataset, hext]
          rw [asRecordList_map_obj]
          simp [from_records, hcols]
        refine ⟨rfl, by rw [hload]; simp, ?_, fun hno => absurd hload (hno _)⟩
        constructor
        · intro _
          exact Or.inr (Or.inr ⟨r :: rest, hext, hcols⟩)
        · intro _
          exact ⟨_, hload⟩
      · have hcolne : (unionKeys (r :: rest)).isEmpty = false := by
          cases h : unionKeys (r :: rest) <;> simp_all
        have hload : load_json_dataset true raw =
            Except.ok (from_records (r :: rest)) := by
          simp only [load_json_dataset, hext]
          rw [asRecordList_map_obj]
          simp [from_records, hcolne]
        refine ⟨rfl, by rw [hload]; simp, ?_, fun hno => ⟨from_records (r :: rest), hload, hcols, by simp [from_records]⟩⟩
        constructor
        · intro ⟨msg, hmsg⟩
          rw [hload] at hmsg
          exact Except.noConfusion hmsg
        · rintro (habs | habs | ⟨recs2, heq, hcols2⟩)
          · exact absurd ⟨_, hext⟩ habs
          · rw [hext] at habs
            simp at habs
          · rw [hext] at heq
            have hrec2 : (r :: rest).map Json.obj = recs2.map Json.obj :=
              (Json.arr.injEq _ _).mp heq
            have : r :: rest = recs2 :=
              List.map_injective_iff.mpr (fun a b hab => (Json.obj.injEq _ _).mp hab) hrec2
            rw [← this] at hcols2
            exact absurd hcols2 hcols
  · have hne : ∀ elems, extractRecords raw ≠ Json.arr elems := fun e he => harr ⟨e, he⟩
    have hload : load_json_dataset true raw =
        Except.error
          (LoadError.validation "JSON dataset must be a list of records or include a data list") := by
      unfold load_json_dataset
      cases hext : extractRecords raw
      case arr elems => exact absurd hext (hne elems)
      all_goals simp
    refine ⟨rfl, by rw [hload]; simp, ?_, fun hno => absurd hload (hno _)⟩
    constructor
    · intro _
      exact Or.inl harr
    · intro _
      exact ⟨_, hload⟩


/-- Claim C2, counterexample: the one-element array containing the empty
record object is a non-empty array of record objects, yet loading fails
(pandas builds a table with one row and zero columns, which is empty),
contradicting the claim that loading succeeds for every such array. -/
theorem c2_counterexample :
    load_json_dataset true (Json.arr [Json.obj []]) =
      Except.error (LoadError.validation "JSON dataset produced an empty DataFrame") := rfl

/-- Claim C2, witness at the repository example record array. -/
theorem c2_load_record_array_witness :
    extractRecords (Json.arr (exampleRecords.map Json.obj)) =
        Json.arr (exampleRecords.map Json.obj) ∧
    exampleRecords ≠ [] ∧ unionKeys exampleRecords ≠ [] ∧
    (load_json_dataset true (Json.arr (exampleRecords.map Json.obj)) =
        Except.ok (from_records exampleRecords) ∧
      (from_records exampleRecords).records.length = exampleRecords.length ∧
      (∀ c, c ∈ (from_records exampleRecords).columns ↔
        ∃ r ∈ exampleRecords, c ∈ recordKeys r) ∧
      (∀ i c, (exampleRecords.getD i []).lookup c = none →
        isNA ((columnCells (from_records exampleRecords) c).getD i none) = true)) :=
  ⟨rfl, by simp [exampleRecords], by decide,
    c2_load_record_array (Json.arr (exampleRecords.map Json.obj)) exampleRecords rfl
      (by simp [exampleRecords]) (by decide)⟩

/-- Claim C3, witness at the repository example record array. -/
theorem c3_loader_error_conditions_witness :
    load_json_dataset false (Json.arr (exampleRecords.map Json.obj)) =
        Except.error LoadError.fileNotFound ∧
    (load_json_dataset true (Json.arr (exampleRecords.map Json.obj)) ≠
        Except.error LoadError.fileNotFound) ∧
    ((∃ msg, load_json_dataset true (Json.arr (exampleRecords.map Json.obj)) =
        Except.error (LoadError.validation msg)) ↔
      ((¬ ∃ elems, extractRecords (Json.arr (exampleRecords.map Json.obj)) = Json.arr elems) ∨
        extractRecords (Json.arr (exampleRecords.map Json.obj)) = Json.arr [] ∨
        (∃ recs : List (List (String × Json)),
          extractRecords (Json.arr (exampleRecords.map Json.obj)) =
              Json.arr (recs.map Json.obj) ∧ unionKeys recs = []))) ∧
    ((∀ msg, load_json_dataset true (Json.arr (exampleRecords.map Json.obj)) ≠
        Except.error (LoadError.validation msg)) →
      ∃ frame, load_json_dataset true (Json.arr (exampleRecords.map Json.obj)) =
          Except.ok frame ∧ frame.columns ≠ [] ∧ frame.records ≠ []) :=
  c3_loader_error_conditions (Json.arr (exampleRecords.map Json.obj))
    (fun _elems h => ⟨exampleRecords, ((Json.arr.injEq _ _).mp h).symm⟩)

theorem not_num_of_isNA {v : Cell} (h : isNA v = true) : isNumCell v = false := by
  cases v with
  | none => rfl
  | some j => cases j <;> simp_all [isNA, isNumCell]

/-- Claim C4, counterexample: a column whose values are entirely
missing (here a single row holding JSON `null`) does not land outside
both classifier lists as the claim states; it keeps pandas `object`
dtype and therefore appears in the categorical sequence. -/
theorem c4_counterexample :
    (∀ v ∈ columnCells (from_records [[("a", Json.null)]]) "a", isNA v = true) ∧
    _categorical_columns (from_records [[("a", Json.null)]]) = ["a"] ∧
    _numeric_columns (from_records [[("a", Json.null)]]) = [] := by
  refine ⟨?_, by decide, by decide⟩
  intro v hv
  have hv2 : v ∈ [some Json.null] := hv
  rcases List.mem_singleton.mp hv2 with rfl
  rfl

/-- Claim C4, amended: the classifier returns two subsequences of the
column list (hence in original column order) that never share a column;
boolean-typed columns appear in the categorical sequence; a column whose
values are entirely missing appears in the categorical sequence (as an
`object`-dtype column), not in neither; indeed every column of a
JSON-derived frame lands in exactly one of the two sequences. -/
theorem c4_classifier (f : Frame) :
    ((_numeric_columns f).Sublist f.columns ∧ (_categorical_columns f).Sublist f.columns) ∧
    (∀ c, ¬ (c ∈ _numeric_columns f ∧ c ∈ _categorical_columns f)) ∧
    (∀ c ∈ f.columns, dtypeOf (columnCells f c) = Dtype.boolean →
      c ∈ _categorical_columns f) ∧
    (∀ c ∈ f.columns, (∀ v ∈ columnCells f c, isNA v = true) →
      c ∈ _categorical_columns f) ∧
    (∀ c ∈ f.columns, c ∈ _numeric_columns f ∨ c ∈ _categorical_columns f) := by
  refine ⟨⟨List.filter_sublist f.columns, List.filter_sublist f.columns⟩, ?_, ?_, ?_, ?_⟩
  · rintro c ⟨hn, hc⟩
    simp only [_numeric_columns, _categorical_columns, List.mem_filter] at hn hc
    rcases hn with ⟨-, hn⟩
    rcases hc with ⟨-, hc⟩
    cases hdt : dtypeOf (columnCells f c) <;> simp_all
  · intro c hc hdt
    show c ∈ f.columns.filter _
    exact List.mem_filter.mpr ⟨hc, by simp [hdt]⟩
  · intro c hc hna
    by_cases hb : (columnCells f c).all isBoolCell
    · show c ∈ f.columns.filter _
      exact List.mem_filter.mpr ⟨hc, by simp [dtypeOf, hb]⟩
    · have hnum : (columnCells f c).any isNumCell = false := by
        rw [List.any_eq_false]
        intro v hv
        simp [not_num_of_isNA (hna v hv)]
      show c ∈ f.columns.filter _
      exact List.mem_filter.mpr ⟨hc, by simp [dtypeOf, hb, hnum]⟩
  · intro c hc
    cases hdt : dtypeOf (columnCells f c) with
    | number => exact Or.inl (show c ∈ f.columns.filter _ from
        List.mem_filter.mpr ⟨hc, by simp [hdt]⟩)
    | boolean => exact Or.inr (show c ∈ f.columns.filter _ from
        List.mem_filter.mpr ⟨hc, by simp [hdt]⟩)
    | object => exact Or.inr (show c ∈ f.columns.filter _ from
        List.mem_filter.mpr ⟨hc, by simp [hdt]⟩)


/-- Claim C4, witness: on a frame with a boolean column and an entirely
missing column, both land in the categorical sequence and the boolean
column is in no more than one sequence. -/
theorem c4_classifier_witness :
    "flag" ∈ flagFrame.columns ∧
    dtypeOf (columnCells flagFrame "flag") = Dtype.boolean ∧
    "flag" ∈ _categorical_columns flagFrame ∧
    "gone" ∈ flagFrame.columns ∧
    (∀ v ∈ columnCells flagFrame "gone", isNA v = true) ∧
    "gone" ∈ _categorical_columns flagFrame ∧
    ¬ ("flag" ∈ _numeric_columns flagFrame ∧ "flag" ∈ _categorical_columns flagFrame) :=
  ⟨by decide, by decide,
   (c4_classifier flagFrame).2.2.1 "flag" (by decide) (by decide),
   by decide,
   (fun v hv => by
     have hv2 : v ∈ [some Json.null] := hv
     rcases List.mem_singleton.mp hv2 with rfl
     rfl),
   (c4_classifier flagFrame).2.2.2.1 "gone" (by decide) (fun v hv => by
     have hv2 : v ∈ [some Json.null] := hv
     rcases List.mem_singleton.mp hv2 with rfl
     rfl),
   (c4_classifier flagFrame).2.1 "flag"⟩

theorem insertDesc_perm (p : String × Nat) (l : List (String × Nat)) :
    (insertDesc p l).Perm (p :: l) := by
  induction l with
  | nil => exact List.Perm.refl _
  | cons q rest ih =>
    unfold insertDesc
    by_cases h : q.2 < p.2
    · rw [if_pos h]
    · rw [if_neg h]
      exact (List.Perm.cons q ih).trans (List.Perm.swap p q rest)

theorem mem_insertDesc {x p : String × Nat} {l : List (String × Nat)} :
    x ∈ insertDesc p l ↔ x = p ∨ x ∈ l := by
  rw [(insertDesc_perm p l).mem_iff]
  simp

theorem pairwise_insertDesc (Q : (String × Nat) → (String × Nat) → Prop)
    (p : String × Nat) (l : List (String × Nat))
    (hl : List.Pairwise (fun a b => b.2 ≤ a.2 ∧ (a.2 = b.2 → Q a b)) l)
    (hq : ∀ a ∈ l, a.2 = p.2 → Q a p) :
    List.Pairwise (fun a b => b.2 ≤ a.2 ∧ (a.2 = b.2 → Q a b)) (insertDesc p l) := by
  induction l with
  | nil => exact List.pairwise_singleton _ _
  | cons q rest ih =>
    rcases List.pairwise_cons.mp hl with ⟨hqrest, hrest⟩
    unfold insertDesc
    by_cases h : q.2 < p.2
    · rw [if_pos h]
      refine List.pairwise_cons.mpr ⟨?_, hl⟩
      intro b hb
      rcases List.mem_cons.mp hb with rfl | hb
      · exact ⟨Nat.le_of_lt h, fun heq => absurd heq (by omega)⟩
      · have hble : b.2 ≤ q.2 := (hqrest b hb).1
        exact ⟨by omega, fun heq => absurd heq (by omega)⟩
    · rw [if_neg h]
      refine List.pairwise_cons.mpr ⟨?_, ?_⟩
      · intro b hb
        rcases mem_insertDesc.mp hb with rfl | hb
        · refine ⟨Nat.le_of_not_lt h, fun heq => hq q (List.mem_cons_self q rest) heq⟩
        · exact hqrest b hb
      · exact ih hrest (fun a ha heq => hq a (List.mem_cons_of_mem q ha) heq)

theorem foldl_insertDesc_perm (ps : List (String × Nat)) :
    ∀ acc, (ps.foldl (fun acc p => insertDesc p acc) acc).Perm (acc ++ ps) := by
  induction ps with
  | nil => intro acc; simp
  | cons p rest ih =>
    intro acc
    rw [List.foldl_cons]
    refine (ih (insertDesc p acc)).trans ?_
    refine (List.Perm.append_right rest (insertDesc_perm p acc)).trans ?_
    exact List.perm_middle.symm

theorem sortDesc_perm (ps : List (String × Nat)) : (sortDesc ps).Perm ps := by
  simpa using foldl_insertDesc_perm ps []

theorem pairwise_foldl_insertDesc (Q : (String × Nat) → (String × Nat) → Prop)
    (ps : List (String × Nat)) :
    ∀ acc, List.Pairwise (fun a b => b.2 ≤ a.2 ∧ (a.2 = b.2 → Q a b)) acc →
      List.Pairwise (fun a b => a.2 = b.2 → Q a b) ps →
      (∀ a ∈ acc, ∀ p ∈ ps, a.2 = p.2 → Q a p) →
      List.Pairwise (fun a b => b.2 ≤ a.2 ∧ (a.2 = b.2 → Q a b))
        (ps.foldl (fun acc p => insertDesc p acc) acc) := by
  induction ps with
  | nil => intro acc hacc _ _; exact hacc
  | cons p rest ih =>
    intro acc hacc hps hcross
    rcases List.pairwise_cons.mp hps with ⟨hprest, hrest⟩
    rw [List.foldl_cons]
    refine ih (insertDesc p acc) ?_ hrest ?_
    · exact pairwise_insertDesc Q p acc hacc
        (fun a ha heq => hcross a ha p (List.mem_cons_self p rest) heq)
    · intro a ha x hx heq
      rcases mem_insertDesc.mp ha with rfl | ha
      · exact hprest x hx heq
      · exact hcross a ha x (List.mem_cons_of_mem p hx) heq

theorem pairwise_sortDesc (Q : (String × Nat) → (String × Nat) → Prop)
    (ps : List (String × Nat))
    (hps : List.Pairwise (fun a b => a.2 = b.2 → Q a b) ps) :
    List.Pairwise (fun a b => b.2 ≤ a.2 ∧ (a.2 = b.2 → Q a b)) (sortDesc ps) := by
  exact pairwise_foldl_insertDesc Q ps [] (List.Pairwise.nil) hps (by simp)

theorem nodup_foldl_addKey (xs : List String) :
    ∀ acc : List String, acc.Nodup → (xs.foldl addKey acc).Nodup := by
  induction xs with
  | nil => intro acc h; exact h
  | cons k rest ih =>
    intro acc hacc
    rw [List.foldl_cons]
    refine ih (addKey acc k) ?_
    unfold addKey
    by_cases h : acc.contains k = true
    · rw [if_pos h]; exact hacc
    · rw [if_neg h]
      have hk : k ∉ acc := by simpa using h
      refine List.nodup_append.mpr ⟨hacc, List.nodup_singleton k, ?_⟩
      intro a ha hak
      exact hk (List.mem_singleton.mp hak ▸ ha)

theorem nodup_distinctFirstSeen (xs : List String) : (distinctFirstSeen xs).Nodup :=
  nodup_foldl_addKey xs [] List.nodup_nil

theorem mem_distinctFirstSeen {xs : List String} {v : String} :
    v ∈ distinctFirstSeen xs ↔ v ∈ xs := by
  unfold distinctFirstSeen
  rw [mem_foldl_addKey]
  simp

theorem pairwise_indexOf_self (l : List String) (hl : l.Nodup) :
    List.Pairwise (fun a b => l.indexOf a < l.indexOf b) l := by
  induction l with
  | nil => exact List.Pairwise.nil
  | cons a t ih =>
    rcases List.nodup_cons.mp hl with ⟨hat, ht⟩
    refine List.pairwise_cons.mpr ⟨?_, ?_⟩
    · intro b hb
      have hba : b ≠ a := fun h => hat (h ▸ hb)
      rw [List.indexOf_cons_self, List.indexOf_cons_ne _ (Ne.symm hba)]
      exact Nat.succ_pos _
    · refine (ih ht).imp_of_mem ?_
      intro x y hx hy hxy
      have hxa : x ≠ a := fun h => hat (h ▸ hx)
      have hya : y ≠ a := fun h => hat (h ▸ hy)
      rw [List.indexOf_cons_ne _ (Ne.symm hxa), List.indexOf_cons_ne _ (Ne.symm hya)]
      exact Nat.succ_lt_succ hxy

theorem pairwise_idx_countPairs (xs : List String) :
    List.Pairwise (fun a b : String × Nat => firstSeenIdx xs a.1 < firstSeenIdx xs b.1)
      (countPairs xs) := by
  unfold countPairs firstSeenIdx
  rw [List.pairwise_map]
  exact pairwise_indexOf_self (distinctFirstSeen xs) (nodup_distinctFirstSeen xs)

theorem mem_countPairs {xs : List String} {p : String × Nat} (h : p ∈ countPairs xs) :
    p.1 ∈ xs ∧ p.2 = countOf xs p.1 := by
  unfold countPairs at h
  rcases List.mem_map.mp h with ⟨v, hv, rfl⟩
  exact ⟨mem_distinctFirstSeen.mp hv, rfl⟩

theorem countPairs_mem_of_mem {xs : List String} {v : String} (h : v ∈ xs) :
    (v, countOf xs v) ∈ countPairs xs := by
  unfold countPairs
  exact List.mem_map.mpr ⟨v, mem_distinctFirstSeen.mpr h, rfl⟩

/-- Claim C5: for every categorical column whose values after dropping
missing entries are non-empty, the rendered page shows
`value_counts().head(10)`: at most ten entries, each a distinct value of
the coerced series labelled with its exact frequency, ordered by weakly
decreasing frequency with ties in first-encountered order, and every
value left out has a frequency no larger than any shown entry (equal
frequency only for values first seen later than the shown entry). -/
theorem c5_top_categories (f : Frame) (c : String) (hne : seriesFor f c ≠ []) :
    _plot_categorical_column f c =
      [Page.categorical c ((value_counts (seriesFor f c)).take 10)] ∧
    ((value_counts (seriesFor f c)).take 10).length ≤ 10 ∧
    (∀ p ∈ (value_counts (seriesFor f c)).take 10,
      p.1 ∈ seriesFor f c ∧ p.2 = countOf (seriesFor f c) p.1) ∧
    List.Pairwise (fun a b => b.2 ≤ a.2 ∧
      (a.2 = b.2 → firstSeenIdx (seriesFor f c) a.1 < firstSeenIdx (seriesFor f c) b.1))
      ((value_counts (seriesFor f c)).take 10) ∧
    (∀ v ∈ seriesFor f c,
      v ∉ ((value_counts (seriesFor f c)).take 10).map Prod.fst →
      ∀ p ∈ (value_counts (seriesFor f c)).take 10,
        countOf (seriesFor f c) v ≤ p.2 ∧
        (countOf (seriesFor f c) v = p.2 →
          firstSeenIdx (seriesFor f c) p.1 < firstSeenIdx (seriesFor f c) v)) := by
  have hperm : (value_counts (seriesFor f c)).Perm (countPairs (seriesFor f c)) :=
    sortDesc_perm _
  have hpw : List.Pairwise (fun a b => b.2 ≤ a.2 ∧
      (a.2 = b.2 → firstSeenIdx (seriesFor f c) a.1 < firstSeenIdx (seriesFor f c) b.1))
      (value_counts (seriesFor f c)) :=
    by
      have hS : List.Pairwise (fun a b : String × Nat => a.2 = b.2 →
          firstSeenIdx (seriesFor f c) a.1 < firstSeenIdx (seriesFor f c) b.1)
          (countPairs (seriesFor f c)) :=
        by
          refine (pairwise_idx_countPairs (seriesFor f c)).imp ?_
          intro a b h _
          exact h
      exact pairwise_sortDesc _ (countPairs (seriesFor f c)) hS
  have hemp : (seriesFor f c).isEmpty = false := by
    cases h : seriesFor f c <;> simp_all
  refine ⟨?_, List.length_take_le _ _, ?_, ?_, ?_⟩
  · simp [_plot_categorical_column, hemp]
  · intro p hp
    have hp2 : p ∈ countPairs (seriesFor f c) :=
      hperm.mem_iff.mp ((List.take_sublist _ _).subset hp)
    exact mem_countPairs hp2
  · exact List.Pairwise.sublist (List.take_sublist _ _) hpw
  · intro v hv hnot p hp
    have hvp : (v, countOf (seriesFor f c) v) ∈ value_counts (seriesFor f c) :=
      hperm.mem_iff.mpr (countPairs_mem_of_mem hv)
    have hpw2 : List.Pairwise (fun a b => b.2 ≤ a.2 ∧
        (a.2 = b.2 → firstSeenIdx (seriesFor f c) a.1 < firstSeenIdx (seriesFor f c) b.1))
        ((value_counts (seriesFor f c)).take 10 ++ (value_counts (seriesFor f c)).drop 10) := by
      rw [List.take_append_drop]
      exact hpw
    rw [← List.take_append_drop 10 (value_counts (seriesFor f c))] at hvp
    rcases List.mem_append.mp hvp with h1 | h2
    · exact absurd (List.mem_map.mpr ⟨_, h1, rfl⟩) hnot
    · have hr := (List.pairwise_append.mp hpw2).2.2 p hp _ h2
      exact ⟨hr.1, fun heq => hr.2 heq.symm⟩


/-- Claim C5, witness at the example dataset's `category` column. -/
theorem c5_top_categories_witness :
    seriesFor exampleFrame "category" ≠ [] ∧
    (_plot_categorical_column exampleFrame "category" =
      [Page.categorical "category" ((value_counts (seriesFor exampleFrame "category")).take 10)] ∧
    ((value_counts (seriesFor exampleFrame "category")).take 10).length ≤ 10 ∧
    (∀ p ∈ (value_counts (seriesFor exampleFrame "category")).take 10,
      p.1 ∈ seriesFor exampleFrame "category" ∧
        p.2 = countOf (seriesFor exampleFrame "category") p.1) ∧
    List.Pairwise (fun a b => b.2 ≤ a.2 ∧
      (a.2 = b.2 → firstSeenIdx (seriesFor exampleFrame "category") a.1 <
        firstSeenIdx (seriesFor exampleFrame "category") b.1))
      ((value_counts (seriesFor exampleFrame "category")).take 10) ∧
    (∀ v ∈ seriesFor exampleFrame "category",
      v ∉ ((value_counts (seriesFor exampleFrame "category")).take 10).map Prod.fst →
      ∀ p ∈ (value_counts (seriesFor exampleFrame "category")).take 10,
        countOf (seriesFor exampleFrame "category") v ≤ p.2 ∧
        (countOf (seriesFor exampleFrame "category") v = p.2 →
          firstSeenIdx (seriesFor exampleFrame "category") p.1 <
            firstSeenIdx (seriesFor exampleFrame "category") v))) :=
  ⟨by decide, c5_top_categories exampleFrame "category" (by decide)⟩

end ReportGenerator

